import Mathlib

/-!
Verification of the feature-flag request-serving core: the credential
resolution path of `FlagService` (rust/feature-flags/src/flags/flag_service.rs)
and the canonical-log telemetry accumulator
(rust/feature-flags/src/handler/canonical_log.rs), shallowly embedded in Lean.

Async effects are modelled by explicit state passing: the negative-cache
contents, the canonical log, the emitted metric events and whether the tiered
cache reader was invoked are threaded through as values.  Collaborators that
live outside this core (the HyperCache reader, the JSON parsers) enter as
environment parameters giving their answer for the one call the code makes.
-/

namespace PosthogFlags

/-- CacheSource mirrors common_hypercache::CacheSource: which tier satisfied a
read (Redis, S3, or the fallback loader backed by PostgreSQL). -/
inductive CacheSource where
  | redis
  | s3
  | fallback
  deriving Repr, DecidableEq, BEq

/-- Log label of a cache source, mirroring CacheSource::as_log_str (the values
recorded into team_cache_source: "redis", "s3", "fallback"). -/
def CacheSource.as_log_str : CacheSource → String
  | .redis => "redis"
  | .s3 => "s3"
  | .fallback => "fallback"

/-- FlagError variants relevant to the credential-resolution path, mirroring
crate::api::errors::FlagError (the variants exercised by flag_service.rs:
the caller-facing token error, the authoritative not-found outcomes, and the
transient/parse failures that must never populate the negative cache). -/
inductive FlagError where
  | TokenValidationError
  | RowNotFound
  | RedisUnavailable
  | DatabaseUnavailable
  | TimeoutError (ctx : Option String)
  | DataParsingError
  | Internal (msg : String)
  deriving Repr, DecidableEq

/-- Modelled from the spec: FlagError::is_token_not_found lives in
api/errors.rs, which is not part of the sources at hand.  The spec classifies
a failure as insert-worthy exactly when it is "specifically 'no tenant matches
this credential'", while "timeouts, transient backend errors, and generic
internal errors must NOT be inserted"; serialization failures likewise must
not be.  Accordingly the authoritative not-found outcomes are classified true
and every backend-unavailable, timeout, parse or internal failure false. -/
def FlagError.is_token_not_found : FlagError → Bool
  | .TokenValidationError => true
  | .RowNotFound => true
  | .RedisUnavailable => false
  | .DatabaseUnavailable => false
  | .TimeoutError _ => false
  | .DataParsingError => false
  | .Internal _ => false

/-- Team mirrors common team_models::Team as far as this core consumes it: a
numeric identity plus the credential that authenticates it. -/
structure Team where
  id : Int
  api_token : String
  deriving Repr, DecidableEq

/-- MetricEvent models one fire-and-forget counter increment: the counter
name together with its string labels, as passed to common_metrics::inc. -/
abbrev MetricEvent := String × List (String × String)

/-- Counter name constant, mirroring metrics::consts. -/
def TEAM_NEGATIVE_CACHE_HIT_COUNTER : String := "team_negative_cache_hit"

/-- Counter name constant, mirroring metrics::consts. -/
def TOKEN_VALIDATION_ERRORS_COUNTER : String := "token_validation_errors"

/-- Counter name constant, mirroring metrics::consts. -/
def TEAM_CACHE_HIT_COUNTER : String := "team_cache_hit"

/-- FlagsCanonicalLogLine mirrors the Rust struct field for field.  Uuid
becomes String, Instant becomes a Nat timestamp, usize/u64/u16 become Nat and
i32 becomes Int; the static string fields become Option String. -/
structure FlagsCanonicalLogLine where
  request_id : String
  ip : String
  start_time : Nat
  user_agent : Option String
  lib : Option String
  lib_version : Option String
  api_version : Option String
  team_id : Option Int
  distinct_id : Option String
  device_id : Option String
  anon_distinct_id : Option String
  flags_evaluated : Nat
  flags_experience_continuity : Nat
  flags_device_id_bucketing : Nat
  flags_disabled : Bool
  quota_limited : Bool
  flags_cache_source : Option String
  db_property_fetches : Nat
  person_queries : Nat
  group_queries : Nat
  static_cohort_queries : Nat
  person_query_time_ms : Nat
  group_query_time_ms : Nat
  cohort_query_time_ms : Nat
  property_cache_hits : Nat
  property_cache_misses : Nat
  person_properties_not_cached : Bool
  group_properties_not_cached : Bool
  cohorts_evaluated : Nat
  flags_errored : Nat
  dependency_graph_errors : Nat
  hash_key_override_status : Option String
  rate_limited : Bool
  team_cache_source : Option String
  http_status : Nat
  error_code : Option String
  deriving Repr, DecidableEq

/-- Default value mirroring the Rust Default impl: nil request id, empty ip,
all counters zero, all booleans false, all options none, http_status 200.
Instant::now() is environment supplied; the model fixes the creation
timestamp at 0 (claims never depend on its absolute value). -/
def FlagsCanonicalLogLine.default : FlagsCanonicalLogLine where
  request_id := "00000000-0000-0000-0000-000000000000"
  ip := ""
  start_time := 0
  user_agent := none
  lib := none
  lib_version := none
  api_version := none
  team_id := none
  distinct_id := none
  device_id := none
  anon_distinct_id := none
  flags_evaluated := 0
  flags_experience_continuity := 0
  flags_device_id_bucketing := 0
  flags_disabled := false
  quota_limited := false
  flags_cache_source := none
  db_property_fetches := 0
  person_queries := 0
  group_queries := 0
  static_cohort_queries := 0
  person_query_time_ms := 0
  group_query_time_ms := 0
  cohort_query_time_ms := 0
  property_cache_hits := 0
  property_cache_misses := 0
  person_properties_not_cached := false
  group_properties_not_cached := false
  cohorts_evaluated := 0
  flags_errored := 0
  dependency_graph_errors := 0
  hash_key_override_status := none
  rate_limited := false
  team_cache_source := none
  http_status := 200
  error_code := none

/-- Merge of a rayon-side delta into this log, mirroring merge_rayon_delta:
exactly the per-flag evaluation counters are summed and the two
properties-not-cached booleans are OR'd; no other field is touched. -/
def FlagsCanonicalLogLine.merge_rayon_delta (self delta : FlagsCanonicalLogLine) :
    FlagsCanonicalLogLine :=
  { self with
    flags_device_id_bucketing :=
      self.flags_device_id_bucketing + delta.flags_device_id_bucketing
    cohorts_evaluated := self.cohorts_evaluated + delta.cohorts_evaluated
    property_cache_hits := self.property_cache_hits + delta.property_cache_hits
    property_cache_misses := self.property_cache_misses + delta.property_cache_misses
    person_properties_not_cached :=
      self.person_properties_not_cached || delta.person_properties_not_cached
    group_properties_not_cached :=
      self.group_properties_not_cached || delta.group_properties_not_cached }

/-- Truncation of a string to a maximum number of characters, mirroring
truncate_chars: Rust slices at the byte index of the max_chars-th character
boundary (returning the whole string when it is shorter), which over the
character sequence is exactly List.take — no multi-byte character is ever
split because the cut is at a character boundary by construction. -/
def truncate_chars (s : String) (max_chars : Nat) : String :=
  String.mk (s.data.take max_chars)

/-- EmittedLine models the single structured record written by emit(): every
log field plus the computed duration, with user_agent truncated. -/
structure EmittedLine where
  request_id : String
  team_id : Option Int
  distinct_id : Option String
  device_id : Option String
  anon_distinct_id : Option String
  ip : String
  user_agent : Option String
  lib : Option String
  lib_version : Option String
  api_version : Option String
  duration_ms : Nat
  http_status : Nat
  flags_evaluated : Nat
  flags_experience_continuity : Nat
  flags_device_id_bucketing : Nat
  flags_disabled : Bool
  quota_limited : Bool
  flags_cache_source : Option String
  db_property_fetches : Nat
  person_queries : Nat
  group_queries : Nat
  static_cohort_queries : Nat
  person_query_time_ms : Nat
  group_query_time_ms : Nat
  cohort_query_time_ms : Nat
  property_cache_hits : Nat
  property_cache_misses : Nat
  person_properties_not_cached : Bool
  group_properties_not_cached : Bool
  cohorts_evaluated : Nat
  flags_errored : Nat
  dependency_graph_errors : Nat
  hash_key_override_status : Option String
  rate_limited : Bool
  team_cache_source : Option String
  error_code : Option String
  deriving Repr, DecidableEq

/-- Emission of the canonical log line, mirroring emit(): duration is elapsed
time since start, user_agent is truncated to 512 characters, and every other
field is written through unchanged.  `now` stands for the clock reading
Instant::elapsed consults. -/
def FlagsCanonicalLogLine.emit (self : FlagsCanonicalLogLine) (now : Nat) : EmittedLine where
  request_id := self.request_id
  team_id := self.team_id
  distinct_id := self.distinct_id
  device_id := self.device_id
  anon_distinct_id := self.anon_distinct_id
  ip := self.ip
  user_agent := self.user_agent.map (fun ua => truncate_chars ua 512)
  lib := self.lib
  lib_version := self.lib_version
  api_version := self.api_version
  duration_ms := now - self.start_time
  http_status := self.http_status
  flags_evaluated := self.flags_evaluated
  flags_experience_continuity := self.flags_experience_continuity
  flags_device_id_bucketing := self.flags_device_id_bucketing
  flags_disabled := self.flags_disabled
  quota_limited := self.quota_limited
  flags_cache_source := self.flags_cache_source
  db_property_fetches := self.db_property_fetches
  person_queries := self.person_queries
  group_queries := self.group_queries
  static_cohort_queries := self.static_cohort_queries
  person_query_time_ms := self.person_query_time_ms
  group_query_time_ms := self.group_query_time_ms
  cohort_query_time_ms := self.cohort_query_time_ms
  property_cache_hits := self.property_cache_hits
  property_cache_misses := self.property_cache_misses
  person_properties_not_cached := self.person_properties_not_cached
  group_properties_not_cached := self.group_properties_not_cached
  cohorts_evaluated := self.cohorts_evaluated
  flags_errored := self.flags_errored
  dependency_graph_errors := self.dependency_graph_errors
  hash_key_override_status := self.hash_key_override_status
  rate_limited := self.rate_limited
  team_cache_source := self.team_cache_source
  error_code := self.error_code

/-- LogScopes models the two ambient storage slots visible to code at one
point of execution: the tokio task-local (some when the probe
CANONICAL_LOG.try_with succeeds, i.e. a task scope is active) and the rayon
thread-local cell (some when a fragment is installed on the current thread). -/
structure LogScopes where
  task_log : Option FlagsCanonicalLogLine
  rayon_log : Option FlagsCanonicalLogLine
  deriving Repr, DecidableEq

/-- Mutation through with_canonical_log, mirroring the Rust control flow: if
the task-local probe succeeds the mutator runs on the task-scoped log and the
thread-local is never consulted; otherwise the mutator runs on the installed
thread-local fragment if there is one; otherwise nothing happens. -/
def with_canonical_log (f : FlagsCanonicalLogLine → FlagsCanonicalLogLine)
    (s : LogScopes) : LogScopes :=
  match s.task_log with
  | some l => { s with task_log := some (f l) }
  | none =>
    match s.rayon_log with
    | some l => { s with rayon_log := some (f l) }
    | none => s

/-- Installation of a fresh rayon-side fragment, mirroring
install_rayon_canonical_log: the thread-local cell is overwritten with a
default-constructed log (the RAII guard it returns merely re-runs take on
drop and is not separately modelled). -/
def install_rayon_canonical_log (s : LogScopes) : LogScopes :=
  { s with rayon_log := some FlagsCanonicalLogLine.default }

/-- Removal of the rayon-side fragment, mirroring take_rayon_canonical_log:
Option::take returns the current contents, leaving none behind. -/
def take_rayon_canonical_log (s : LogScopes) :
    Option FlagsCanonicalLogLine × LogScopes :=
  (s.rayon_log, { s with rayon_log := none })

/-- NegativeCache state, modelled from the spec: common_cache::NegativeCache
is not among the sources at hand; its contract is membership of credentials
known invalid (`contains(key) -> bool`; `insert(key)`), which a list of
tokens embeds.  TTL and capacity eviction only ever remove entries and no
claim depends on them, so they are not modelled. -/
abbrev NegativeCache := List String

/-- Membership test of the negative cache, per its contract. -/
def NegativeCache.contains (c : NegativeCache) (token : String) : Bool :=
  List.contains c token

/-- Insertion into the negative cache, per its contract. -/
def NegativeCache.insert (c : NegativeCache) (token : String) : NegativeCache :=
  c ++ [token]

/-- TeamLookupEnv gives the collaborators' answers for one
get_team_from_cache_or_pg call: the tiered reader's result (already including
the fallback loader it may have invoked, per its contract) and the
Team::from_hypercache_value parse of whatever value came back. -/
structure TeamLookupEnv (V : Type) where
  reader : Except FlagError (V × CacheSource)
  parse : V → Except FlagError Team

/-- LookupOutcome is the full effect of one team lookup: the returned value,
the canonical log after the call and the counters incremented. -/
structure LookupOutcome where
  result : Except FlagError Team
  log : FlagsCanonicalLogLine
  metrics : List MetricEvent

/-- Team lookup, mirroring get_team_from_cache_or_pg: reader errors propagate
through the question-mark operator untouched; on a successful read the value
is parsed, and only after a successful parse is team_cache_source recorded
and the cache-hit counter (labelled by whether the source was a cache tier
rather than the fallback) incremented. -/
def get_team_from_cache_or_pg {V : Type} (env : TeamLookupEnv V)
    (log : FlagsCanonicalLogLine) : LookupOutcome :=
  match env.reader with
  | .error e => ⟨.error e, log, []⟩
  | .ok (data, source) =>
    match env.parse data with
    | .error e => ⟨.error e, log, []⟩
    | .ok team =>
      let cache_hit : Bool := !(source == .fallback)
      ⟨.ok team,
       { log with team_cache_source := some source.as_log_str },
       [(TEAM_CACHE_HIT_COUNTER, [("cache_hit", toString cache_hit)])]⟩

/-- VerifyOutcome is the full effect of one verify_token_and_get_team call:
the returned value, the negative cache and canonical log after the call,
whether the tiered reader (and hence the fallback loader reachable only
through it) was invoked, and the counters incremented. -/
structure VerifyOutcome where
  result : Except FlagError Team
  negative_cache : NegativeCache
  log : FlagsCanonicalLogLine
  reader_invoked : Bool
  metrics : List MetricEvent

/-- Token verification, mirroring verify_token_and_get_team: a negative-cache
hit short-circuits with TokenValidationError, tagging team_cache_source as
"negative_cache" and incrementing the negative-cache-hit and
token-validation-error counters, with zero backend calls.  Otherwise the
lookup runs; success returns the team, and any failure returns
TokenValidationError, inserting the token into the negative cache (and
counting a validation error) exactly when is_token_not_found classifies the
failure as authoritative. -/
def verify_token_and_get_team {V : Type} (nc : NegativeCache) (token : String)
    (env : TeamLookupEnv V) (log : FlagsCanonicalLogLine) : VerifyOutcome :=
  if NegativeCache.contains nc token then
    { result := .error .TokenValidationError
      negative_cache := nc
      log := { log with team_cache_source := some "negative_cache" }
      reader_invoked := false
      metrics := [(TEAM_NEGATIVE_CACHE_HIT_COUNTER, []),
                  (TOKEN_VALIDATION_ERRORS_COUNTER, [("reason", "token_not_found")])] }
  else
    let outcome := get_team_from_cache_or_pg env log
    match outcome.result with
    | .ok team =>
      { result := .ok team
        negative_cache := nc
        log := outcome.log
        reader_invoked := true
        metrics := outcome.metrics }
    | .error e =>
      { result := .error .TokenValidationError
        negative_cache :=
          if e.is_token_not_found then NegativeCache.insert nc token else nc
        log := outcome.log
        reader_invoked := true
        metrics := outcome.metrics ++
          (if e.is_token_not_found then
            [(TOKEN_VALIDATION_ERRORS_COUNTER, [("reason", "token_not_found")])]
           else []) }

/-- VerifyTokenOutcome is VerifyOutcome with the deprecated wrapper's String
payload in place of the Team. -/
structure VerifyTokenOutcome where
  result : Except FlagError String
  negative_cache : NegativeCache
  log : FlagsCanonicalLogLine
  reader_invoked : Bool
  metrics : List MetricEvent

/-- Deprecated token verification, mirroring verify_token: it is exactly
verify_token_and_get_team with the team mapped away in favour of the token
string; all effects are those of the underlying call. -/
def verify_token {V : Type} (nc : NegativeCache) (token : String)
    (env : TeamLookupEnv V) (log : FlagsCanonicalLogLine) : VerifyTokenOutcome :=
  let o := verify_token_and_get_team nc token env log
  { result := o.result.map (fun _ => token)
    negative_cache := o.negative_cache
    log := o.log
    reader_invoked := o.reader_invoked
    metrics := o.metrics }

/-- FlagResult mirrors the Rust FlagResult: the flag list together with the
cache source that satisfied the read. -/
structure FlagResult (F : Type) where
  flag_list : F
  cache_source : CacheSource
  deriving Repr

/-- FlagsLookupEnv gives the collaborators' answers for one
get_flags_from_cache_or_pg call: the tiered reader's result and the
FeatureFlagList::parse_hypercache_value parse of the returned value. -/
structure FlagsLookupEnv (V F : Type) where
  reader : Except FlagError (V × CacheSource)
  parse : V → Except FlagError F

/-- Modelled from the spec: the cache-hit counter for the flags lookup is
emitted inside common_hypercache's reader ("Emits appropriate metrics for all
scenarios"), which is not among the sources at hand; the spec stipulates that
fetch_flags "Records cache-hit counter and cache-source telemetry".  The
counter is labelled by whether a cache tier (rather than the fallback loader)
satisfied the read. -/
def flags_cache_hit_metric (source : CacheSource) : MetricEvent :=
  ("flags_cache_hit", [("cache_hit", toString (!(source == CacheSource.fallback)))])

/-- Flags lookup, mirroring get_flags_from_cache_or_pg: reader errors
propagate untouched; on success the value is parsed and returned together
with the cache source, with no canonical-log write from this function
(flags_cache_source is set by the handler from the returned source) and the
reader-emitted cache-hit metric as the only telemetry. -/
def get_flags_from_cache_or_pg {V F : Type} (env : FlagsLookupEnv V F) :
    Except FlagError (FlagResult F) × List MetricEvent :=
  match env.reader with
  | .error e => (.error e, [])
  | .ok (data, source) =>
    match env.parse data with
    | .error e => (.error e, [flags_cache_hit_metric source])
    | .ok flags => (.ok ⟨flags, source⟩, [flags_cache_hit_metric source])

/-- Helper: folding with_canonical_log mutations over a state with no active
task scope and an installed rayon fragment applies the mutations, in order,
to the fragment alone. -/
theorem foldl_with_canonical_log_rayon
    (fs : List (FlagsCanonicalLogLine → FlagsCanonicalLogLine))
    (l : FlagsCanonicalLogLine) :
    fs.foldl (fun s f => with_canonical_log f s) ⟨none, some l⟩
      = ⟨none, some (fs.foldl (fun acc f => f acc) l)⟩ := by
  induction fs generalizing l with
  | nil => rfl
  | cons f fs ih =>
    simp only [List.foldl_cons]
    exact ih (f l)

/-- C1: for a token absent from the negative cache whose team lookup fails
with error e, verify_token_and_get_team inserts the token into the negative
cache exactly when e is classified token-not-found; backend-unavailable,
timeout and serialization/parsing failures never insert, and an authoritative
not-found failure always inserts. -/
theorem negative_cache_insert_iff_not_found {V : Type} (nc : NegativeCache)
    (token : String) (env : TeamLookupEnv V) (log : FlagsCanonicalLogLine)
    (e : FlagError)
    (hnc : NegativeCache.contains nc token = false)
    (hfail : (get_team_from_cache_or_pg env log).result = .error e) :
    (NegativeCache.contains
        (verify_token_and_get_team nc token env log).negative_cache token = true
      ↔ e.is_token_not_found = true) ∧
    ((e = .RedisUnavailable ∨ e = .DatabaseUnavailable ∨
        (∃ c, e = .TimeoutError c) ∨ e = .DataParsingError ∨
        (∃ m, e = .Internal m)) →
      (verify_token_and_get_team nc token env log).negative_cache = nc) ∧
    (e.is_token_not_found = true →
      (verify_token_and_get_team nc token env log).negative_cache
        = NegativeCache.insert nc token) := by
  have hv : (verify_token_and_get_team nc token env log).negative_cache
      = if e.is_token_not_found then NegativeCache.insert nc token else nc := by
    simp [verify_token_and_get_team, hnc, hfail]
  refine ⟨?_, ?_, ?_⟩
  · rw [hv]
    by_cases h : e.is_token_not_found
    · simp [h, NegativeCache.contains, NegativeCache.insert]
    · simp only [h, if_neg, Bool.false_eq_true, iff_false]
      simp only [Bool.not_eq_true] at h ⊢
      simpa [h] using hnc
  · rintro (rfl | rfl | ⟨c, rfl⟩ | rfl | ⟨m, rfl⟩) <;>
      simp [hv, FlagError.is_token_not_found]
  · intro h
    rw [hv, if_pos h]

/-- Witness for C1 at a concrete input: an empty negative cache, token "x",
and a reader failing with RedisUnavailable. -/
theorem negative_cache_insert_iff_not_found_witness :
    (NegativeCache.contains
        (verify_token_and_get_team [] "x"
          (⟨Except.error FlagError.RedisUnavailable,
            fun _ : String => Except.error FlagError.DataParsingError⟩ :
            TeamLookupEnv String)
          FlagsCanonicalLogLine.default).negative_cache "x" = true
      ↔ FlagError.RedisUnavailable.is_token_not_found = true) ∧
    ((FlagError.RedisUnavailable = .RedisUnavailable ∨
        FlagError.RedisUnavailable = .DatabaseUnavailable ∨
        (∃ c, FlagError.RedisUnavailable = .TimeoutError c) ∨
        FlagError.RedisUnavailable = .DataParsingError ∨
        (∃ m, FlagError.RedisUnavailable = .Internal m)) →
      (verify_token_and_get_team [] "x"
          (⟨Except.error FlagError.RedisUnavailable,
            fun _ : String => Except.error FlagError.DataParsingError⟩ :
            TeamLookupEnv String)
          FlagsCanonicalLogLine.default).negative_cache = []) ∧
    (FlagError.RedisUnavailable.is_token_not_found = true →
      (verify_token_and_get_team [] "x"
          (⟨Except.error FlagError.RedisUnavailable,
            fun _ : String => Except.error FlagError.DataParsingError⟩ :
            TeamLookupEnv String)
          FlagsCanonicalLogLine.default).negative_cache
        = NegativeCache.insert [] "x") :=
  negative_cache_insert_iff_not_found [] "x" _ FlagsCanonicalLogLine.default
    FlagError.RedisUnavailable rfl rfl

/-- C2: for a token contained in the negative cache,
verify_token_and_get_team returns the TokenValidationError error without
invoking the tiered cache reader or the fallback loader reachable only
through it, and records "negative_cache" into the canonical log's
team_cache_source field. -/
theorem negative_cache_hit_short_circuits {V : Type} (nc : NegativeCache)
    (token : String) (env : TeamLookupEnv V) (log : FlagsCanonicalLogLine)
    (h : NegativeCache.contains nc token = true) :
    (verify_token_and_get_team nc token env log).result
        = .error .TokenValidationError ∧
    (verify_token_and_get_team nc token env log).reader_invoked = false ∧
    (verify_token_and_get_team nc token env log).log.team_cache_source
        = some "negative_cache" := by
  simp [verify_token_and_get_team, h]

/-- Witness for C2 at a concrete input: the token "bad" already present in
the negative cache. -/
theorem negative_cache_hit_short_circuits_witness :
    (verify_token_and_get_team ["bad"] "bad"
        (⟨Except.error FlagError.RedisUnavailable,
          fun _ : String => Except.error FlagError.DataParsingError⟩ :
          TeamLookupEnv String)
        FlagsCanonicalLogLine.default).result
      = .error .TokenValidationError ∧
    (verify_token_and_get_team ["bad"] "bad"
        (⟨Except.error FlagError.RedisUnavailable,
          fun _ : String => Except.error FlagError.DataParsingError⟩ :
          TeamLookupEnv String)
        FlagsCanonicalLogLine.default).reader_invoked = false ∧
    (verify_token_and_get_team ["bad"] "bad"
        (⟨Except.error FlagError.RedisUnavailable,
          fun _ : String => Except.error FlagError.DataParsingError⟩ :
          TeamLookupEnv String)
        FlagsCanonicalLogLine.default).log.team_cache_source
      = some "negative_cache" :=
  negative_cache_hit_short_circuits ["bad"] "bad" _
    FlagsCanonicalLogLine.default rfl

/-- C3: any two runs whose team lookups fail, whatever the internal causes,
surface the identical caller-visible error: both return exactly
TokenValidationError. -/
theorem failures_collapse_to_token_validation_error {V₁ V₂ : Type}
    (nc₁ : NegativeCache) (token₁ : String) (env₁ : TeamLookupEnv V₁)
    (log₁ : FlagsCanonicalLogLine) (e₁ : FlagError)
    (nc₂ : NegativeCache) (token₂ : String) (env₂ : TeamLookupEnv V₂)
    (log₂ : FlagsCanonicalLogLine) (e₂ : FlagError)
    (hnc₁ : NegativeCache.contains nc₁ token₁ = false)
    (hf₁ : (get_team_from_cache_or_pg env₁ log₁).result = .error e₁)
    (hnc₂ : NegativeCache.contains nc₂ token₂ = false)
    (hf₂ : (get_team_from_cache_or_pg env₂ log₂).result = .error e₂) :
    (verify_token_and_get_team nc₁ token₁ env₁ log₁).result
        = (verify_token_and_get_team nc₂ token₂ env₂ log₂).result ∧
    (verify_token_and_get_team nc₁ token₁ env₁ log₁).result
        = .error .TokenValidationError := by
  constructor <;> simp [verify_token_and_get_team, hnc₁, hf₁, hnc₂, hf₂]

/-- Witness for C3 at concrete inputs: one lookup failing with the
authoritative not-found error and one with a backend-unavailable error. -/
theorem failures_collapse_to_token_validation_error_witness :
    (verify_token_and_get_team [] "a"
        (⟨Except.error FlagError.RowNotFound,
          fun _ : String => Except.error FlagError.DataParsingError⟩ :
          TeamLookupEnv String)
        FlagsCanonicalLogLine.default).result
      = (verify_token_and_get_team [] "b"
          (⟨Except.error FlagError.RedisUnavailable,
            fun _ : String => Except.error FlagError.DataParsingError⟩ :
            TeamLookupEnv String)
          FlagsCanonicalLogLine.default).result ∧
    (verify_token_and_get_team [] "a"
        (⟨Except.error FlagError.RowNotFound,
          fun _ : String => Except.error FlagError.DataParsingError⟩ :
          TeamLookupEnv String)
        FlagsCanonicalLogLine.default).result
      = .error .TokenValidationError :=
  failures_collapse_to_token_validation_error [] "a" _
    FlagsCanonicalLogLine.default FlagError.RowNotFound [] "b" _
    FlagsCanonicalLogLine.default FlagError.RedisUnavailable rfl rfl rfl rfl

/-- C10: the deprecated verify_token is verify_token_and_get_team with the
team discarded: it succeeds with exactly the token when the underlying call
succeeds with some team, fails with the identical error whenever the
underlying call fails, and has the identical effects. -/
theorem verify_token_equiv_get_team {V : Type} (nc : NegativeCache)
    (token : String) (env : TeamLookupEnv V) (log : FlagsCanonicalLogLine) :
    ((verify_token nc token env log).result = .ok token ↔
      ∃ t, (verify_token_and_get_team nc token env log).result = .ok t) ∧
    (∀ e, (verify_token nc token env log).result = .error e ↔
      (verify_token_and_get_team nc token env log).result = .error e) ∧
    (verify_token nc token env log).negative_cache
        = (verify_token_and_get_team nc token env log).negative_cache ∧
    (verify_token nc token env log).log
        = (verify_token_and_get_team nc token env log).log ∧
    (verify_token nc token env log).reader_invoked
        = (verify_token_and_get_team nc token env log).reader_invoked ∧
    (verify_token nc token env log).metrics
        = (verify_token_and_get_team nc token env log).metrics := by
  refine ⟨?_, ?_, rfl, rfl, rfl, rfl⟩
  · cases h : (verify_token_and_get_team nc token env log).result <;>
      simp [verify_token, h, Except.map]
  · intro e
    cases h : (verify_token_and_get_team nc token env log).result <;>
      simp [verify_token, h, Except.map]

/-- C4 counterexample: merge_rayon_delta does not sum the per-store query
counts, contradicting the claim that every evaluation-counter field is
merged: merging a delta with person_queries 3 into a zeroed log leaves
person_queries at 0, not 0 + 3. -/
theorem merge_does_not_sum_per_store_query_counts :
    (FlagsCanonicalLogLine.merge_rayon_delta FlagsCanonicalLogLine.default
        { FlagsCanonicalLogLine.default with person_queries := 3 }).person_queries
      ≠ FlagsCanonicalLogLine.default.person_queries + 3 := by
  decide

/-- C4 amended: merge_rayon_delta merges exactly the per-flag evaluation
counters — device-vs-user bucketing counts, cohort evaluation counts and
property cache hits/misses are summed, the two properties-not-cached booleans
are OR'd — while the per-store query counts and timings (and the aggregate
db_property_fetches) are left unchanged; merging deltas with hits 3 then 5
into a log adds 8 to its hits. -/
theorem merge_rayon_delta_sums_eval_counters
    (log delta : FlagsCanonicalLogLine) :
    (log.merge_rayon_delta delta).flags_device_id_bucketing
        = log.flags_device_id_bucketing + delta.flags_device_id_bucketing ∧
    (log.merge_rayon_delta delta).cohorts_evaluated
        = log.cohorts_evaluated + delta.cohorts_evaluated ∧
    (log.merge_rayon_delta delta).property_cache_hits
        = log.property_cache_hits + delta.property_cache_hits ∧
    (log.merge_rayon_delta delta).property_cache_misses
        = log.property_cache_misses + delta.property_cache_misses ∧
    (log.merge_rayon_delta delta).person_properties_not_cached
        = (log.person_properties_not_cached || delta.person_properties_not_cached) ∧
    (log.merge_rayon_delta delta).group_properties_not_cached
        = (log.group_properties_not_cached || delta.group_properties_not_cached) ∧
    (log.merge_rayon_delta delta).person_queries = log.person_queries ∧
    (log.merge_rayon_delta delta).group_queries = log.group_queries ∧
    (log.merge_rayon_delta delta).static_cohort_queries = log.static_cohort_queries ∧
    (log.merge_rayon_delta delta).person_query_time_ms = log.person_query_time_ms ∧
    (log.merge_rayon_delta delta).group_query_time_ms = log.group_query_time_ms ∧
    (log.merge_rayon_delta delta).cohort_query_time_ms = log.cohort_query_time_ms ∧
    (log.merge_rayon_delta delta).db_property_fetches = log.db_property_fetches ∧
    ((log.merge_rayon_delta
          { FlagsCanonicalLogLine.default with property_cache_hits := 3 }).merge_rayon_delta
        { FlagsCanonicalLogLine.default with property_cache_hits := 5 }).property_cache_hits
      = log.property_cache_hits + 8 := by
  refine ⟨rfl, rfl, rfl, rfl, rfl, rfl, rfl, rfl, rfl, rfl, rfl, rfl, rfl, ?_⟩
  show log.property_cache_hits + 3 + 5 = log.property_cache_hits + 8
  omega

/-- C5: merge_rayon_delta leaves every request-identity field of the log
unchanged, whatever the delta carries: request id, ip, start time, user
agent, client library fields, team id, distinct/device/anon ids, http status
and error code are all preserved. -/
theorem merge_rayon_delta_preserves_request_identity
    (log delta : FlagsCanonicalLogLine) :
    (log.merge_rayon_delta delta).request_id = log.request_id ∧
    (log.merge_rayon_delta delta).ip = log.ip ∧
    (log.merge_rayon_delta delta).start_time = log.start_time ∧
    (log.merge_rayon_delta delta).user_agent = log.user_agent ∧
    (log.merge_rayon_delta delta).lib = log.lib ∧
    (log.merge_rayon_delta delta).lib_version = log.lib_version ∧
    (log.merge_rayon_delta delta).api_version = log.api_version ∧
    (log.merge_rayon_delta delta).team_id = log.team_id ∧
    (log.merge_rayon_delta delta).distinct_id = log.distinct_id ∧
    (log.merge_rayon_delta delta).device_id = log.device_id ∧
    (log.merge_rayon_delta delta).anon_distinct_id = log.anon_distinct_id ∧
    (log.merge_rayon_delta delta).http_status = log.http_status ∧
    (log.merge_rayon_delta delta).error_code = log.error_code := by
  refine ⟨rfl, rfl, rfl, rfl, rfl, rfl, rfl, rfl, rfl, rfl, rfl, rfl, rfl⟩

/-- C6: with_canonical_log applies the mutator to the task-scoped log
whenever that scope is active, leaving any installed thread-scoped fragment
untouched; with no task scope it applies the mutator to the installed
thread-scoped fragment; with neither in place it leaves the state unchanged
(a silent, total no-op). -/
theorem with_canonical_log_scope_precedence
    (f : FlagsCanonicalLogLine → FlagsCanonicalLogLine) (s : LogScopes) :
    (∀ l, s.task_log = some l →
      with_canonical_log f s = { s with task_log := some (f l) }) ∧
    (s.task_log = none → ∀ l, s.rayon_log = some l →
      with_canonical_log f s = { s with rayon_log := some (f l) }) ∧
    (s.task_log = none → s.rayon_log = none → with_canonical_log f s = s) := by
  obtain ⟨t, r⟩ := s
  refine ⟨?_, ?_, ?_⟩
  · rintro l rfl
    rfl
  · rintro rfl l rfl
    rfl
  · rintro rfl rfl
    rfl

/-- Witness for C6 at concrete inputs: the three scope shapes (both
installed, only thread-scoped installed, neither installed) with a mutator
setting team_id. -/
theorem with_canonical_log_scope_precedence_witness :
    (with_canonical_log (fun l => { l with team_id := some 5 })
        ⟨some FlagsCanonicalLogLine.default, some FlagsCanonicalLogLine.default⟩
      = ⟨some { FlagsCanonicalLogLine.default with team_id := some 5 },
         some FlagsCanonicalLogLine.default⟩) ∧
    (with_canonical_log (fun l => { l with team_id := some 5 })
        ⟨none, some FlagsCanonicalLogLine.default⟩
      = ⟨none, some { FlagsCanonicalLogLine.default with team_id := some 5 }⟩) ∧
    (with_canonical_log (fun l => { l with team_id := some 5 })
        ⟨none, none⟩ = ⟨none, none⟩) :=
  ⟨(with_canonical_log_scope_precedence (fun l => { l with team_id := some 5 })
      ⟨some FlagsCanonicalLogLine.default, some FlagsCanonicalLogLine.default⟩).1
      FlagsCanonicalLogLine.default rfl,
   (with_canonical_log_scope_precedence (fun l => { l with team_id := some 5 })
      ⟨none, some FlagsCanonicalLogLine.default⟩).2.1
      rfl FlagsCanonicalLogLine.default rfl,
   (with_canonical_log_scope_precedence (fun l => { l with team_id := some 5 })
      ⟨none, none⟩).2.2 rfl rfl⟩

/-- C7: installing a rayon fragment, applying any sequence of
with_canonical_log mutations outside a task scope, then taking the fragment
yields exactly the default log with those mutations applied in order, and an
immediately following second take yields none. -/
theorem install_mutate_take_round_trip
    (fs : List (FlagsCanonicalLogLine → FlagsCanonicalLogLine))
    (r0 : Option FlagsCanonicalLogLine) :
    (take_rayon_canonical_log
        (fs.foldl (fun s f => with_canonical_log f s)
          (install_rayon_canonical_log ⟨none, r0⟩))).1
      = some (fs.foldl (fun acc f => f acc) FlagsCanonicalLogLine.default) ∧
    (take_rayon_canonical_log
        (take_rayon_canonical_log
          (fs.foldl (fun s f => with_canonical_log f s)
            (install_rayon_canonical_log ⟨none, r0⟩))).2).1 = none := by
  have h := foldl_with_canonical_log_rayon fs FlagsCanonicalLogLine.default
  have hinst : install_rayon_canonical_log ⟨none, r0⟩
      = (⟨none, some FlagsCanonicalLogLine.default⟩ : LogScopes) := rfl
  rw [hinst, h]
  exact ⟨rfl, rfl⟩

/-- C8: truncate_chars counts Unicode characters, not bytes: the result's
character sequence is exactly the first max_chars characters of the input
(hence a prefix that never splits a multi-byte character, with length
min max_chars (length of s)), and emit applies it to the user-agent field
with the fixed maximum of 512 characters. -/
theorem truncate_chars_counts_characters (s : String) (n : Nat) :
    (truncate_chars s n).data = s.data.take n ∧
    (truncate_chars s n).length = min n s.length ∧
    (∀ (log : FlagsCanonicalLogLine) (now : Nat),
      (log.emit now).user_agent
        = log.user_agent.map (fun ua => truncate_chars ua 512)) := by
  refine ⟨rfl, ?_, fun log now => rfl⟩
  show (s.data.take n).length = min n s.data.length
  exact List.length_take n s.data

/-- C9: with the reader answering from source src and the payload parsing to
flags fl, get_flags_from_cache_or_pg returns the flag set together with the
CacheOutcome, the lookup's cache-hit counter (labelled by outcome) is
recorded, and flags_cache_source is logged directly rather than merged: merge
never changes it and emit writes it through unchanged. -/
theorem get_flags_records_cache_telemetry {V F : Type}
    (env : FlagsLookupEnv V F) (v : V) (src : CacheSource) (fl : F)
    (h1 : env.reader = .ok (v, src)) (h2 : env.parse v = .ok fl) :
    (get_flags_from_cache_or_pg env).1 = .ok ⟨fl, src⟩ ∧
    (get_flags_from_cache_or_pg env).2 = [flags_cache_hit_metric src] ∧
    (∀ log delta : FlagsCanonicalLogLine,
      (log.merge_rayon_delta delta).flags_cache_source = log.flags_cache_source) ∧
    (∀ (log : FlagsCanonicalLogLine) (now : Nat),
      (log.emit now).flags_cache_source = log.flags_cache_source) := by
  refine ⟨?_, ?_, fun log delta => rfl, fun log now => rfl⟩ <;>
    simp [get_flags_from_cache_or_pg, h1, h2]

/-- Witness for C9 at a concrete input: a redis-tier hit whose payload parses
successfully. -/
theorem get_flags_records_cache_telemetry_witness :
    (get_flags_from_cache_or_pg
        (⟨Except.ok ("payload", CacheSource.redis),
          fun _ : String => Except.ok "flags"⟩ :
          FlagsLookupEnv String String)).1
      = .ok ⟨"flags", CacheSource.redis⟩ ∧
    (get_flags_from_cache_or_pg
        (⟨Except.ok ("payload", CacheSource.redis),
          fun _ : String => Except.ok "flags"⟩ :
          FlagsLookupEnv String String)).2
      = [flags_cache_hit_metric CacheSource.redis] ∧
    (∀ log delta : FlagsCanonicalLogLine,
      (log.merge_rayon_delta delta).flags_cache_source = log.flags_cache_source) ∧
    (∀ (log : FlagsCanonicalLogLine) (now : Nat),
      (log.emit now).flags_cache_source = log.flags_cache_source) :=
  get_flags_records_cache_telemetry _ "payload" CacheSource.redis "flags" rfl rfl

end PosthogFlags
